import Mathlib

/-
Shallow embedding of the CameraStore state-management core
(the TypeScript store embedded in src/network_diagnostics.sh).
Pure data is modelled with Lean structures; the event-loop mutations
are modelled as explicit state-passing functions; network outcomes
are supplied as explicit environment values.
-/

namespace CameraStore

/-- Cache time-to-live in milliseconds (source constant CACHE_DURATION = 30000). -/
def cacheTTL : Nat := 30000

/-- Health check interval in milliseconds (source constant HEALTH_CHECK_INTERVAL = 10000). -/
def healthCheckIntervalMs : Nat := 10000

/-- WebRTC port (source constant MEDIAMTX_WEBRTC_PORT = 8889). -/
def webrtcPort : Nat := 8889

/-- Camera status values, from the union type in the Camera interface. -/
inductive Status where
  | online
  | offline
  | error
  | checking
deriving DecidableEq, Repr

/-- The Camera entity (source interface Camera). The optional numeric fields
lastSeen and errorCount are modelled as Nat with 0 standing for the JS
falsy absent value, matching how the source reads them with the JS
or-else-falsy operator. -/
structure Camera where
  id : String
  name : String
  source : String
  status : Status
  isActive : Bool
  hlsUrl : String
  webrtcUrl : String
  lastSeen : Nat
  errorCount : Nat
deriving DecidableEq, Repr

/-- Per-camera health record (source interface HealthStatus values). -/
structure HealthRecord where
  status : Status
  lastCheck : Nat
  errorCount : Nat
deriving DecidableEq, Repr

/-- The single cache entry used by the store (key cameras_list). -/
structure CacheEntry where
  data : List Camera
  timestamp : Nat
  expires : Nat
deriving DecidableEq, Repr

/-- The mutable fields of the CameraStore class that the claims concern. -/
structure StoreState where
  cameras : List Camera
  healthStatus : List (String × HealthRecord)
  cache : Option CacheEntry
  isLoading : Bool
deriving DecidableEq, Repr

/-- JS object-map lookup healthStatus[id] (first binding wins; bindings are unique). -/
def lookupHealth : List (String × HealthRecord) → String → Option HealthRecord
  | [], _ => none
  | (k, v) :: rest, id => if k = id then some v else lookupHealth rest id

/-- JS object-map assignment healthStatus[id] = r. -/
def setHealth : List (String × HealthRecord) → String → HealthRecord → List (String × HealthRecord)
  | [], id, r => [(id, r)]
  | (k, v) :: rest, id, r => if k = id then (id, r) :: rest else (k, v) :: setHealth rest id r

/-- JS Array.prototype.find over the camera list with predicate (c => c.id === id). -/
def findCamera : List Camera → String → Option Camera
  | [], _ => none
  | c :: rest, id => if c.id = id then some c else findCamera rest id

/-- In-place mutation of the camera object returned by Array.find:
the first list element with the given id is replaced by its image under f. -/
def modifyFirst : List Camera → String → (Camera → Camera) → List Camera
  | [], _, _ => []
  | c :: rest, id, f => if c.id = id then f c :: rest else c :: modifyFirst rest id f

/-- response.ok of the fetch API: HTTP status in the range 200-299. -/
def respOk (code : Nat) : Bool := decide (200 ≤ code ∧ code < 300)

/-- Outcome of one HEAD probe against a camera's HLS manifest:
either a response with an HTTP status code, or a thrown
network/timeout/abort error. -/
inductive ProbeOutcome where
  | response (code : Nat)
  | thrown
deriving DecidableEq, Repr

/-- Spec taxonomy classifier: a hard-failure is a thrown error or a
non-2xx, non-404 response (used to state the spec claims, not taken
from the source). -/
def isHardFailure : ProbeOutcome → Bool
  | ProbeOutcome.thrown => true
  | ProbeOutcome.response code => decide (¬(200 ≤ code ∧ code < 300) ∧ code ≠ 404)

/-- getCameras() (the source returns a fresh copy of the array;
the value is the same list). -/
def getCameras (s : StoreState) : List Camera := s.cameras

/-- getActiveCameras(). -/
def getActiveCameras (s : StoreState) : List Camera :=
  s.cameras.filter (fun c => c.isActive)

/-- getOnlineCameras(). -/
def getOnlineCameras (s : StoreState) : List Camera :=
  s.cameras.filter (fun c => decide (c.status = Status.online))

/-- getCameraById(id). -/
def getCameraById (s : StoreState) (id : String) : Option Camera :=
  findCamera s.cameras id

/-- Status of the camera with the given id, if present. -/
def cameraStatusOf (s : StoreState) (id : String) : Option Status :=
  (getCameraById s id).map Camera.status

/-- The consecutive-failure counter currently recorded for a camera,
with the same default record the source supplies when the map has no
entry ({ status: checking, lastCheck: 0, errorCount: 0 }). -/
def healthErrorCountOf (s : StoreState) (id : String) : Nat :=
  ((lookupHealth s.healthStatus id).getD ⟨Status.checking, 0, 0⟩).errorCount

/-- updateCameraStatus(id, status) (source lines 430-439): find the camera;
if present and its status differs, set the status, refresh lastSeen on
online, copy errorCount from the health record (JS or-else-falsy 0),
invalidate the cameras_list cache entry, and schedule a notification. -/
def updateCameraStatus (s : StoreState) (id : String) (status : Status) (now : Nat) : StoreState :=
  match findCamera s.cameras id with
  | none => s
  | some cam =>
    if cam.status ≠ status then
      { s with
        cameras := modifyFirst s.cameras id (fun c =>
          { c with
            status := status
            lastSeen := if status = Status.online then now else c.lastSeen
            errorCount := ((lookupHealth s.healthStatus id).map HealthRecord.errorCount).getD 0 })
        cache := none }
    else s

/-- One camera's health-check callback body inside checkCamerasHealth
(source lines 364-424), processing one probe outcome for the camera
with the given id. The try branch handles a delivered response
(2xx => online; 404 => held online if the recorded health was online,
else checking; otherwise offline, downgraded to checking below 3
consecutive errors); the catch branch handles a thrown error
(error at 3 consecutive errors, else held online if the recorded
health was online, else checking). In both branches the health record
is rewritten first and the camera status updated second. -/
def probeStep (s : StoreState) (camId : String) (outcome : ProbeOutcome) (now : Nat) : StoreState :=
  match findCamera s.cameras camId with
  | none => s
  | some cam =>
    match outcome with
    | ProbeOutcome.response code =>
      let newStatus :=
        if respOk code then Status.online
        else if code = 404 then
          match lookupHealth s.healthStatus camId with
          | some r => if r.status = Status.online then Status.online else Status.checking
          | none => Status.checking
        else Status.offline
      let currentHealth := (lookupHealth s.healthStatus camId).getD ⟨Status.checking, 0, 0⟩
      let errorCount := if respOk code then 0 else currentHealth.errorCount + 1
      let s1 : StoreState :=
        { s with healthStatus := setHealth s.healthStatus camId ⟨newStatus, now, errorCount⟩ }
      if cam.status ≠ newStatus then
        let adjusted :=
          if newStatus = Status.offline ∧ errorCount < 3 then Status.checking else newStatus
        updateCameraStatus s1 camId adjusted now
      else s1
    | ProbeOutcome.thrown =>
      let currentHealth := (lookupHealth s.healthStatus camId).getD ⟨Status.checking, 0, 0⟩
      let errorCount := currentHealth.errorCount + 1
      let newStatus :=
        if 3 ≤ errorCount then Status.error
        else if currentHealth.status = Status.online then Status.online
        else Status.checking
      let s1 : StoreState :=
        { s with healthStatus := setHealth s.healthStatus camId ⟨newStatus, now, errorCount⟩ }
      if cam.status ≠ newStatus then updateCameraStatus s1 camId newStatus now
      else s1

/-- checkCamerasHealth() (source lines 361-428): no-op on an empty camera
list; otherwise every camera is probed and each settled outcome is
folded through the per-camera callback. The outcome of each camera's
probe is supplied by the environment function. -/
def checkCamerasHealth (s : StoreState) (outcomes : String → ProbeOutcome) (now : Nat) : StoreState :=
  if s.cameras = [] then s
  else (s.cameras.map Camera.id).foldl (fun st id => probeStep st id (outcomes id) now) s

/-- Iterate probeStep for one camera over a list of successive probe outcomes. -/
def runProbes (s : StoreState) (id : String) (outs : List ProbeOutcome) (now : Nat) : StoreState :=
  outs.foldl (fun st o => probeStep st id o now) s

/-- Capitalisation of one word inside formatCameraName:
word.charAt(0).toUpperCase() + word.slice(1).toLowerCase(). -/
def capitalizeWord (w : String) : String :=
  match w.data with
  | [] => ""
  | c :: rest => String.mk (c.toUpper :: rest.map Char.toLower)

/-- formatCameraName(name) (source lines 338-344): replace underscores by
spaces, split on spaces, capitalise each word, rejoin with spaces. -/
def formatCameraName (name : String) : String :=
  String.intercalate " " (((name.replace "_" " ").splitOn " ").map capitalizeWord)

/-- generateHlsUrl(cameraName). -/
def generateHlsUrl (cameraName : String) : String :=
  "/hls/" ++ cameraName ++ "/index.m3u8"

/-- Browser location values the store reads (window.location.protocol and
window.location.hostname). -/
structure HostEnv where
  protocol : String
  hostname : String

/-- generateWebrtcUrl(cameraName). -/
def generateWebrtcUrl (henv : HostEnv) (cameraName : String) : String :=
  henv.protocol ++ "//" ++ henv.hostname ++ ":" ++ toString webrtcPort ++ "/" ++ cameraName ++ "/whep"

/-- chunkArray(array, size) (source lines 330-336). The source is only
called with size 5; a zero size, which would loop forever in the
source's for loop, is mapped to the empty chunk list. -/
def chunkArray {α : Type} : List α → Nat → List (List α)
  | [], _ => []
  | _ :: _, 0 => []
  | x :: xs, size + 1 =>
    (x :: xs).take (size + 1) :: chunkArray ((x :: xs).drop (size + 1)) (size + 1)
termination_by l _ => l.length
decreasing_by
  simp only [List.length_drop, List.length_cons]
  omega

/-- Result of the paths-list round trip: the fetch (or response.json())
threw, or a parsed body whose items field is absent or a list of path
names. -/
inductive ListResult where
  | fetchError
  | ok (items : Option (List String))

/-- A parsed per-path config response body (the fields the store reads). -/
structure ConfigJson where
  name : String
  source : String
deriving DecidableEq, Repr

/-- Network environment for one refresh: the paths-list outcome and, for
each path name, the per-path config outcome (none means the config
fetch failed). -/
structure FetchEnv where
  listResult : ListResult
  configFetch : String → Option ConfigJson

/-- The record the config-fetch loop yields for one item (source lines
277-288): the parsed body on success, or the synthetic record
{ name: item.name, source: unknown, error: true } on failure. -/
structure PathConfig where
  name : String
  source : String
  error : Bool
deriving DecidableEq, Repr

/-- One iteration of the per-item config fetch with its internal catch. -/
def fetchPathConfig (env : FetchEnv) (itemName : String) : PathConfig :=
  match env.configFetch itemName with
  | some j => ⟨j.name, j.source, false⟩
  | none => ⟨itemName, "unknown", true⟩

/-- Construction of one Camera from one config record (source lines
299-314), reading the pre-refresh camera list and the health map. -/
def buildCamera (oldCams : List Camera) (hs : List (String × HealthRecord))
    (henv : HostEnv) (now : Nat) (config : PathConfig) : Camera :=
  let existingCamera := findCamera oldCams config.name
  { id := config.name
    name := formatCameraName config.name
    source := if config.source = "" then "unknown" else config.source
    status :=
      if config.error then Status.error
      else ((lookupHealth hs config.name).map HealthRecord.status).getD Status.checking
    isActive :=
      match existingCamera with
      | some c => c.isActive
      | none => true
    hlsUrl := generateHlsUrl config.name
    webrtcUrl := generateWebrtcUrl henv config.name
    lastSeen :=
      match existingCamera with
      | some c => if c.lastSeen = 0 then now else c.lastSeen
      | none => now
    errorCount := ((lookupHealth hs config.name).map HealthRecord.errorCount).getD 0 }

/-- getCached(cameras_list) (source lines 195-202): value of a cache hit. -/
def getCachedCameras (cache : Option CacheEntry) (now : Nat) : Option (List Camera) :=
  match cache with
  | none => none
  | some e => if e.expires < now then none else some e.data

/-- The cache-map side effect of getCached: an absent or expired entry is
deleted. -/
def pruneCache (cache : Option CacheEntry) (now : Nat) : Option CacheEntry :=
  match cache with
  | none => none
  | some e => if e.expires < now then none else some e

/-- setCache(cameras_list, cams) with the default duration. -/
def setCacheEntry (cams : List Camera) (now : Nat) : Option CacheEntry :=
  some ⟨cams, now, now + cacheTTL⟩

/-- Where the synchronous prefix of loadCameras ends: either the call
returned without reaching the network (coalesced no-op or cache hit),
or it is suspended awaiting the paths-list response with isLoading set. -/
inductive LoadPhase where
  | returned (s : StoreState)
  | fetching (s : StoreState)

/-- The synchronous prefix of loadCameras(forceRefresh) (source lines
241-260): the in-flight coalescing guard, the cache check (only without
forceRefresh), then isLoading is set and the paths-list request issued. -/
def loadCamerasSync (s : StoreState) (forceRefresh : Bool) (now : Nat) : LoadPhase :=
  if s.isLoading ∧ forceRefresh = false then LoadPhase.returned s
  else
    match (if forceRefresh = false then getCachedCameras s.cache now else none) with
    | some cached => LoadPhase.returned { s with cameras := cached }
    | none =>
      let cache1 := if forceRefresh = false then pruneCache s.cache now else s.cache
      LoadPhase.fetching { s with cache := cache1, isLoading := true }

/-- The continuation of loadCameras after the paths-list round trip
(source lines 261-326): on a thrown fetch/parse error the camera list
is kept; on a missing or empty items list the cameras are cleared and
the empty list cached; otherwise the per-path configs are fetched in
chunks of 5, transformed into Camera values, stored and cached. The
finally block clears isLoading in every branch. -/
def loadCamerasResume (s : StoreState) (henv : HostEnv) (env : FetchEnv) (now : Nat) : StoreState :=
  match env.listResult with
  | ListResult.fetchError => { s with isLoading := false }
  | ListResult.ok itemsOpt =>
    match itemsOpt with
    | none => { s with cameras := [], cache := setCacheEntry [] now, isLoading := false }
    | some items =>
      if items = [] then { s with cameras := [], cache := setCacheEntry [] now, isLoading := false }
      else
        let allConfigs := ((chunkArray items 5).map (fun chunk => chunk.map (fetchPathConfig env))).flatten
        let newCams :=
          (allConfigs.filter (fun c => decide (c.name ≠ ""))).map
            (buildCamera s.cameras s.healthStatus henv now)
        { s with cameras := newCams, cache := setCacheEntry newCams now, isLoading := false }

/-- One whole loadCameras(forceRefresh) call with no interleaved calls.
The second component counts the HTTP requests made to the paths-list
endpoint by this call. -/
def loadCameras (s : StoreState) (forceRefresh : Bool) (henv : HostEnv) (env : FetchEnv) (now : Nat) :
    StoreState × Nat :=
  match loadCamerasSync s forceRefresh now with
  | LoadPhase.returned s1 => (s1, 0)
  | LoadPhase.fetching s1 => (loadCamerasResume s1 henv env now, 1)

/-- Two concurrent loadCameras(false) calls on the event loop: call A runs
its synchronous prefix, call B then runs to completion, then call A
resumes if it was suspended. The second component is the total number
of paths-list requests issued by the pair. -/
def coalescedRefreshPair (s : StoreState) (henv : HostEnv) (env : FetchEnv) (now : Nat) :
    StoreState × Nat :=
  match loadCamerasSync s false now with
  | LoadPhase.returned s1 =>
    loadCameras s1 false henv env now
  | LoadPhase.fetching s1 =>
    let second := loadCameras s1 false henv env now
    (loadCamerasResume second.1 henv env now, 1 + second.2)

/-- The first statement of forceRefreshCameraStatus(): this.healthStatus = {}. -/
def clearHealthStatus (s : StoreState) : StoreState :=
  { s with healthStatus := [] }

/-- forceRefreshCameraStatus() (source lines 515-524): clear the health
map, then await loadCameras(true), then await checkCamerasHealth(). -/
def forceRefreshCameraStatus (s : StoreState) (henv : HostEnv) (env : FetchEnv)
    (outcomes : String → ProbeOutcome) (now : Nat) : StoreState :=
  let s1 := clearHealthStatus s
  let s2 := (loadCameras s1 true henv env now).1
  checkCamerasHealth s2 outcomes now

/-- toggleCamera(id) (source lines 554-561): find the camera; if absent
return; else flip isActive, invalidate the cache, schedule a
notification. -/
def toggleCamera (s : StoreState) (id : String) : StoreState :=
  match findCamera s.cameras id with
  | none => s
  | some _ =>
    { s with
      cameras := modifyFirst s.cameras id (fun c => { c with isActive := !c.isActive })
      cache := none }

/-- What one listener callback does when invoked: return normally or
throw with a message. -/
inductive ListenerOutcome where
  | ok
  | throws (msg : String)
deriving DecidableEq, Repr

/-- Invocation of one subscribed listener callback. -/
def invokeListener : ListenerOutcome → Except String Unit
  | ListenerOutcome.ok => Except.ok ()
  | ListenerOutcome.throws m => Except.error m

/-- The delivery loop inside notifyListeners (source lines 663-670):
this.listeners.forEach, each invocation wrapped in try/catch, a thrown
error logged via console.error. Listeners are identified by a Nat tag;
the result is the list of tags of the callbacks that were invoked, in
order, and the list of logged (tag, message) errors. -/
def notifyDeliver : List (Nat × ListenerOutcome) → List Nat × List (Nat × String)
  | [] => ([], [])
  | l :: rest =>
    match invokeListener l.2 with
    | Except.ok _ =>
      let tail := notifyDeliver rest
      (l.1 :: tail.1, tail.2)
    | Except.error m =>
      let tail := notifyDeliver rest
      (l.1 :: tail.1, (l.1, m) :: tail.2)

/-- A concrete camera that has been confirmed online. -/
def camOnline1 : Camera :=
  { id := "cam1"
    name := "Cam1"
    source := "rtsp://192.168.0.2:554"
    status := Status.online
    isActive := true
    hlsUrl := generateHlsUrl "cam1"
    webrtcUrl := "http://192.168.0.10:8889/cam1/whep"
    lastSeen := 50
    errorCount := 0 }

/-- A concrete store state with one online camera whose recorded health is
online with zero consecutive errors. -/
def state1 : StoreState :=
  { cameras := [camOnline1]
    healthStatus := [("cam1", ⟨Status.online, 50, 0⟩)]
    cache := none
    isLoading := false }

/-- state1 with a refresh in flight. -/
def state1Loading : StoreState :=
  { state1 with isLoading := true }

/-- A concrete freshly discovered camera, not yet probed. -/
def camChecking1 : Camera :=
  { camOnline1 with status := Status.checking, lastSeen := 0 }

/-- A concrete store state with one unprobed camera and an empty health map. -/
def stateFresh : StoreState :=
  { cameras := [camChecking1]
    healthStatus := []
    cache := none
    isLoading := false }

/-- A concrete probe-outcome sequence: one success, two 404 soft-failures,
one thrown hard-failure. -/
def mixedTrace : List ProbeOutcome :=
  [ProbeOutcome.response 200, ProbeOutcome.response 404,
   ProbeOutcome.response 404, ProbeOutcome.thrown]

/-- A concrete browser location. -/
def henv1 : HostEnv := ⟨"http:", "192.168.0.10"⟩

/-- A concrete refresh environment whose paths-list round trip fails. -/
def envFail : FetchEnv := ⟨ListResult.fetchError, fun _ => none⟩

/-- A concrete refresh environment with one path whose config fetch succeeds. -/
def envOk1 : FetchEnv := ⟨ListResult.ok (some ["cam_a"]), fun n => some ⟨n, "rtsp://up"⟩⟩

theorem lookupHealth_setHealth_self (hs : List (String × HealthRecord)) (id : String)
    (r : HealthRecord) : lookupHealth (setHealth hs id r) id = some r := by
  induction hs with
  | nil => simp [setHealth, lookupHealth]
  | cons p rest ih =>
    obtain ⟨k, v⟩ := p
    by_cases h : k = id
    · simp [setHealth, lookupHealth, h]
    · simp [setHealth, lookupHealth, h, ih]

theorem findCamera_modifyFirst (id : String) (f : Camera → Camera)
    (hf : ∀ c, (f c).id = c.id) (l : List Camera) :
    findCamera (modifyFirst l id f) id = (findCamera l id).map f := by
  induction l with
  | nil => simp [modifyFirst, findCamera]
  | cons c rest ih =>
    by_cases h : c.id = id
    · simp [modifyFirst, findCamera, h, hf c]
    · simp [modifyFirst, findCamera, h, ih]

theorem modifyFirst_modifyFirst (id : String) (f g : Camera → Camera)
    (hf : ∀ c, (f c).id = c.id) (l : List Camera) :
    modifyFirst (modifyFirst l id f) id g = modifyFirst l id (fun c => g (f c)) := by
  induction l with
  | nil => simp [modifyFirst]
  | cons c rest ih =>
    by_cases h : c.id = id
    · simp [modifyFirst, h, hf c]
    · simp [modifyFirst, h, ih]

theorem modifyFirst_id_of_fix (id : String) (f : Camera → Camera)
    (hf : ∀ c, f c = c) (l : List Camera) : modifyFirst l id f = l := by
  induction l with
  | nil => rfl
  | cons c rest ih =>
    by_cases h : c.id = id
    · simp [modifyFirst, h, hf c]
    · simp [modifyFirst, h, ih]

theorem updateCameraStatus_healthStatus (s : StoreState) (id : String) (st : Status)
    (now : Nat) : (updateCameraStatus s id st now).healthStatus = s.healthStatus := by
  unfold updateCameraStatus
  split
  · rfl
  · split <;> rfl

theorem updateCameraStatus_cameraStatus (s : StoreState) (id : String) (st : Status)
    (now : Nat) (cam : Camera) (hfind : findCamera s.cameras id = some cam) :
    cameraStatusOf (updateCameraStatus s id st now) id = some st := by
  simp only [updateCameraStatus, hfind]
  by_cases h : cam.status = st
  · simp [h, cameraStatusOf, getCameraById, hfind]
  · simp only [ne_eq, h, not_false_iff, if_true, cameraStatusOf, getCameraById]
    have hx := findCamera_modifyFirst id
      (fun c => { c with
        status := st
        lastSeen := if st = Status.online then now else c.lastSeen
        errorCount := ((lookupHealth s.healthStatus id).map HealthRecord.errorCount).getD 0 })
      (fun c => rfl) s.cameras
    rw [hx, hfind]
    rfl

/-- C9: when a change notification is delivered, a listener callback that
throws is caught and logged individually, and every other subscribed
listener is still invoked: for every list of listeners, the invoked
tags are exactly all subscribed tags in order, and the logged errors
are exactly the throwing listeners. -/
theorem notify_isolates_listener_faults (ls : List (Nat × ListenerOutcome)) :
    (notifyDeliver ls).1 = ls.map Prod.fst ∧
    (notifyDeliver ls).2 = ls.filterMap (fun l =>
      match l.2 with
      | ListenerOutcome.ok => none
      | ListenerOutcome.throws m => some (l.1, m)) := by
  induction ls with
  | nil => simp [notifyDeliver]
  | cons l rest ih =>
    obtain ⟨tag, b⟩ := l
    cases b <;> simp [notifyDeliver, invokeListener, ih.1, ih.2]

/-- C10: toggleCamera is an involution on the camera list, and a call with
an id absent from the list changes nothing at all. -/
theorem toggleCamera_involution (s : StoreState) (id : String) :
    (toggleCamera (toggleCamera s id) id).cameras = s.cameras ∧
    (findCamera s.cameras id = none → toggleCamera s id = s) := by
  constructor
  · cases hfind : findCamera s.cameras id with
    | none => simp [toggleCamera, hfind]
    | some cam =>
      simp only [toggleCamera, hfind]
      have hx := findCamera_modifyFirst id
        (fun c => { c with isActive := !c.isActive }) (fun c => rfl) s.cameras
      rw [hx, hfind]
      simp only [Option.map_some']
      rw [modifyFirst_modifyFirst id
        (fun c => { c with isActive := !c.isActive })
        (fun c => { c with isActive := !c.isActive }) (fun c => rfl)]
      exact modifyFirst_id_of_fix id _ (fun c => by cases c; simp) s.cameras
  · intro h
    simp [toggleCamera, h]

/-- C10 witness: toggling an absent id on a concrete store is the identity. -/
theorem toggleCamera_involution_witness : toggleCamera state1 "nope" = state1 :=
  (toggleCamera_involution state1 "nope").2 (by decide)

theorem cameraStatusOf_branch (s1 : StoreState) (id : String) (now : Nat) (cam : Camera)
    (a b : Status) (hfind : findCamera s1.cameras id = some cam)
    (hab : cam.status = a → cam.status = b) :
    cameraStatusOf (if cam.status ≠ a then updateCameraStatus s1 id b now else s1) id =
      some b := by
  by_cases h : cam.status = a
  · simp only [h, ne_eq, not_true_eq_false, if_false]
    simp [cameraStatusOf, getCameraById, hfind, ← hab h]
  · simp only [ne_eq, h, not_false_iff, if_true]
    exact updateCameraStatus_cameraStatus s1 id b now cam hfind

/-- C4: a single successful probe (2xx HEAD response) sets the camera's
status to online and resets its recorded errorCount to 0, regardless of
the prior errorCount or status. -/
theorem success_probe_sets_online (s : StoreState) (id : String) (code now : Nat)
    (cam : Camera) (hfind : findCamera s.cameras id = some cam)
    (hok : respOk code = true) :
    cameraStatusOf (probeStep s id (ProbeOutcome.response code) now) id = some Status.online ∧
    lookupHealth (probeStep s id (ProbeOutcome.response code) now).healthStatus id =
      some ⟨Status.online, now, 0⟩ := by
  have hstep : probeStep s id (ProbeOutcome.response code) now =
      (if cam.status ≠ Status.online then
        updateCameraStatus
          { s with healthStatus := setHealth s.healthStatus id ⟨Status.online, now, 0⟩ }
          id Status.online now
      else { s with healthStatus := setHealth s.healthStatus id ⟨Status.online, now, 0⟩ }) := by
    simp [probeStep, hfind, hok]
  rw [hstep]
  constructor
  · exact cameraStatusOf_branch _ id now cam Status.online Status.online hfind (fun h => h)
  · by_cases h : cam.status = Status.online
    · simp only [h, ne_eq, not_true_eq_false, if_false]
      exact lookupHealth_setHealth_self s.healthStatus id _
    · simp only [ne_eq, h, not_false_iff, if_true]
      rw [updateCameraStatus_healthStatus]
      exact lookupHealth_setHealth_self s.healthStatus id _

/-- C4 witness: on a concrete store a 204 HEAD response makes the camera
online with a zeroed health record. -/
theorem success_probe_sets_online_witness :
    cameraStatusOf (probeStep state1 "cam1" (ProbeOutcome.response 204) 60) "cam1" =
      some Status.online ∧
    lookupHealth (probeStep state1 "cam1" (ProbeOutcome.response 204) 60).healthStatus "cam1" =
      some ⟨Status.online, 60, 0⟩ :=
  success_probe_sets_online state1 "cam1" 204 60 camOnline1 (by decide) (by decide)

/-- C5: a single 404 soft-failure holds a camera whose recorded health
status was online at online, and moves any other camera to checking; it
never yields offline. -/
theorem soft_failure_holds_status (s : StoreState) (id : String) (now : Nat)
    (cam : Camera) (hfind : findCamera s.cameras id = some cam) :
    ((lookupHealth s.healthStatus id).map HealthRecord.status = some Status.online →
      cameraStatusOf (probeStep s id (ProbeOutcome.response 404) now) id = some Status.online) ∧
    ((lookupHealth s.healthStatus id).map HealthRecord.status ≠ some Status.online →
      cameraStatusOf (probeStep s id (ProbeOutcome.response 404) now) id = some Status.checking) := by
  have h404 : respOk 404 = false := by decide
  constructor
  · intro hon
    cases hl : lookupHealth s.healthStatus id with
    | none => rw [hl] at hon; exact absurd hon (by simp)
    | some r =>
      rw [hl] at hon
      have hr : r.status = Status.online := by simpa using hon
      have hstep : probeStep s id (ProbeOutcome.response 404) now =
          (if cam.status ≠ Status.online then
            updateCameraStatus
              { s with healthStatus :=
                  setHealth s.healthStatus id ⟨Status.online, now, r.errorCount + 1⟩ }
              id Status.online now
          else { s with healthStatus :=
                  setHealth s.healthStatus id ⟨Status.online, now, r.errorCount + 1⟩ }) := by
        simp [probeStep, hfind, h404, hl, hr]
      rw [hstep]
      exact cameraStatusOf_branch _ id now cam Status.online Status.online hfind (fun h => h)
  · intro hnot
    have hstatus : ∀ ec : Nat, cameraStatusOf
        (if cam.status ≠ Status.checking then
          updateCameraStatus
            { s with healthStatus := setHealth s.healthStatus id ⟨Status.checking, now, ec⟩ }
            id Status.checking now
        else { s with healthStatus := setHealth s.healthStatus id ⟨Status.checking, now, ec⟩ }) id =
          some Status.checking := by
      intro ec
      exact cameraStatusOf_branch _ id now cam Status.checking Status.checking hfind (fun h => h)
    cases hl : lookupHealth s.healthStatus id with
    | none =>
      have hstep : probeStep s id (ProbeOutcome.response 404) now =
          (if cam.status ≠ Status.checking then
            updateCameraStatus
              { s with healthStatus := setHealth s.healthStatus id ⟨Status.checking, now, 1⟩ }
              id Status.checking now
          else { s with healthStatus := setHealth s.healthStatus id ⟨Status.checking, now, 1⟩ }) := by
        simp [probeStep, hfind, h404, hl]
      rw [hstep]
      exact hstatus 1
    | some r =>
      have hr : r.status ≠ Status.online := by
        intro hcon
        exact hnot (by simp [hl, hcon])
      have hstep : probeStep s id (ProbeOutcome.response 404) now =
          (if cam.status ≠ Status.checking then
            updateCameraStatus
              { s with healthStatus :=
                  setHealth s.healthStatus id ⟨Status.checking, now, r.errorCount + 1⟩ }
              id Status.checking now
          else { s with healthStatus :=
                  setHealth s.healthStatus id ⟨Status.checking, now, r.errorCount + 1⟩ }) := by
        simp [probeStep, hfind, h404, hl, hr]
      rw [hstep]
      exact hstatus (r.errorCount + 1)

/-- C5 witness: on a concrete store where the recorded health is online, a
single 404 leaves the camera online. -/
theorem soft_failure_holds_status_witness :
    cameraStatusOf (probeStep state1 "cam1" (ProbeOutcome.response 404) 60) "cam1" =
      some Status.online :=
  (soft_failure_holds_status state1 "cam1" 60 camOnline1 (by decide)).1 (by decide)

theorem branch_healthStatus (s1 : StoreState) (id : String) (b : Status) (now : Nat)
    (cond : Prop) [Decidable cond] :
    (if cond then updateCameraStatus s1 id b now else s1).healthStatus = s1.healthStatus := by
  split
  · exact updateCameraStatus_healthStatus s1 id b now
  · rfl

theorem probeStep_errorCount_response (s : StoreState) (id : String) (code now : Nat)
    (cam : Camera) (hfind : findCamera s.cameras id = some cam) :
    healthErrorCountOf (probeStep s id (ProbeOutcome.response code) now) id =
      if respOk code then 0 else healthErrorCountOf s id + 1 := by
  simp only [probeStep, hfind]
  unfold healthErrorCountOf
  rw [branch_healthStatus, lookupHealth_setHealth_self]
  rfl

theorem probeStep_errorCount_thrown (s : StoreState) (id : String) (now : Nat)
    (cam : Camera) (hfind : findCamera s.cameras id = some cam) :
    healthErrorCountOf (probeStep s id ProbeOutcome.thrown now) id =
      healthErrorCountOf s id + 1 := by
  simp only [probeStep, hfind]
  unfold healthErrorCountOf
  rw [branch_healthStatus, lookupHealth_setHealth_self]
  rfl

/-- C1 counterexample: in a concrete store whose camera has recorded
errorCount 0, a single 404 soft-failure increments the recorded
errorCount to 1, so a soft-failure does not leave errorCount
unchanged as claimed. -/
theorem soft_failure_increments_errorCount_cex :
    healthErrorCountOf state1 "cam1" = 0 ∧
    healthErrorCountOf (probeStep state1 "cam1" (ProbeOutcome.response 404) 60) "cam1" = 1 := by
  decide

/-- C1 (amended): the recorded errorCount resets to 0 on any 2xx success
and increments by exactly one on every non-success probe outcome: a
404 soft-failure, any other non-2xx response, and a thrown
network/timeout error all increment it. -/
theorem errorCount_reset_and_increment (s : StoreState) (id : String) (now : Nat)
    (cam : Camera) (hfind : findCamera s.cameras id = some cam) :
    (∀ code, respOk code = true →
      healthErrorCountOf (probeStep s id (ProbeOutcome.response code) now) id = 0) ∧
    (∀ code, respOk code = false →
      healthErrorCountOf (probeStep s id (ProbeOutcome.response code) now) id =
        healthErrorCountOf s id + 1) ∧
    healthErrorCountOf (probeStep s id ProbeOutcome.thrown now) id =
      healthErrorCountOf s id + 1 := by
  refine ⟨?_, ?_, probeStep_errorCount_thrown s id now cam hfind⟩
  · intro code hok
    rw [probeStep_errorCount_response s id code now cam hfind]
    simp [hok]
  · intro code hbad
    rw [probeStep_errorCount_response s id code now cam hfind]
    simp [hbad]

/-- C1 amended witness: a thrown probe error on a concrete store increments
the recorded errorCount by one. -/
theorem errorCount_reset_and_increment_witness :
    healthErrorCountOf (probeStep state1 "cam1" ProbeOutcome.thrown 60) "cam1" =
      healthErrorCountOf state1 "cam1" + 1 :=
  (errorCount_reset_and_increment state1 "cam1" 60 camOnline1 (by decide)).2.2

/-- C2 counterexample: a concrete online camera with recorded errorCount 0
receives one hard-failure (HTTP 500, a non-2xx non-404 response); the
resulting errorCount 1 is below the threshold 3, yet the camera's
status becomes checking instead of being kept online as claimed. -/
theorem hard_failure_below_threshold_cex :
    cameraStatusOf state1 "cam1" = some Status.online ∧
    healthErrorCountOf (probeStep state1 "cam1" (ProbeOutcome.response 500) 60) "cam1" = 1 ∧
    cameraStatusOf (probeStep state1 "cam1" (ProbeOutcome.response 500) 60) "cam1" =
      some Status.checking := by
  decide

/-- C2 (amended): below the threshold the two hard-failure kinds behave
differently. A thrown network/timeout error holds a camera whose
recorded health status was online at online and moves any other camera
to checking; a non-2xx non-404 HTTP response moves the camera to
checking regardless of its prior status, unless it was already
offline. -/
theorem hard_failure_below_threshold (s : StoreState) (id : String) (now : Nat)
    (cam : Camera) (hfind : findCamera s.cameras id = some cam)
    (hc : healthErrorCountOf s id + 1 < 3) :
    (cameraStatusOf (probeStep s id ProbeOutcome.thrown now) id =
      some (if ((lookupHealth s.healthStatus id).getD ⟨Status.checking, 0, 0⟩).status =
              Status.online then Status.online else Status.checking)) ∧
    (∀ code, respOk code = false → code ≠ 404 →
      cameraStatusOf (probeStep s id (ProbeOutcome.response code) now) id =
        some (if cam.status = Status.offline then Status.offline else Status.checking)) := by
  unfold healthErrorCountOf at hc
  constructor
  · have h3 : ¬ (3 ≤ ((lookupHealth s.healthStatus id).getD
        ⟨Status.checking, 0, 0⟩).errorCount + 1) := by omega
    simp only [probeStep, hfind]
    rw [if_neg h3]
    exact cameraStatusOf_branch _ id now cam _ _ hfind (fun h => h)
  · intro code hbad h404
    simp only [probeStep, hfind, hbad, Bool.false_eq_true, if_false]
    rw [if_neg h404]
    have hcond : (Status.offline = Status.offline ∧
        ((lookupHealth s.healthStatus id).getD
          ⟨Status.checking, 0, 0⟩).errorCount + 1 < 3) := ⟨rfl, hc⟩
    rw [if_pos hcond]
    by_cases hoff : cam.status = Status.offline
    · simp [hoff, cameraStatusOf, getCameraById, hfind]
    · simp only [hoff, if_false, ne_eq, not_false_iff, if_true]
      exact updateCameraStatus_cameraStatus _ id Status.checking now cam hfind

/-- C2 amended witness: on a concrete store a 500 response below threshold
moves the online camera to checking. -/
theorem hard_failure_below_threshold_witness :
    cameraStatusOf (probeStep state1 "cam1" (ProbeOutcome.response 500) 60) "cam1" =
      some (if camOnline1.status = Status.offline then Status.offline else Status.checking) :=
  (hard_failure_below_threshold state1 "cam1" 60 camOnline1 (by decide) (by decide)).2
    500 (by decide) (by decide)

/-- C3 counterexample: a concrete trace in which a camera goes online, then
receives two 404 soft-failures and a single thrown hard-failure. The
trace contains exactly one hard-failure outcome, yet the camera, online
just before it, transitions to error: the code's threshold counts
consecutive non-success outcomes of any kind, not consecutive
hard-failures. -/
theorem online_to_error_after_one_hard_failure_cex :
    (mixedTrace.filter isHardFailure).length = 1 ∧
    cameraStatusOf (runProbes stateFresh "cam1" (mixedTrace.take 3) 9) "cam1" =
      some Status.online ∧
    cameraStatusOf (runProbes stateFresh "cam1" mixedTrace 9) "cam1" = some Status.error := by
  decide

/-- C3 (amended): in one probe-processing step, a camera whose status is
online never transitions to error or offline while the accumulated
count of consecutive non-success outcomes (soft 404 failures and hard
failures both advance the counter) stays below 3. -/
theorem online_needs_three_failures (s : StoreState) (id : String)
    (outcome : ProbeOutcome) (now : Nat) (cam : Camera)
    (hfind : findCamera s.cameras id = some cam)
    (hon : cam.status = Status.online)
    (hc : healthErrorCountOf s id < 2) :
    cameraStatusOf (probeStep s id outcome now) id ≠ some Status.error ∧
    cameraStatusOf (probeStep s id outcome now) id ≠ some Status.offline := by
  have hc3 : healthErrorCountOf s id + 1 < 3 := by omega
  cases outcome with
  | response code =>
    by_cases hok : respOk code = true
    · have h := (success_probe_sets_online s id code now cam hfind hok).1
      rw [h]
      constructor <;> simp
    · have hbad : respOk code = false := by
        cases hr : respOk code
        · rfl
        · exact absurd hr hok
      by_cases h404 : code = 404
      · subst h404
        by_cases hrec : (lookupHealth s.healthStatus id).map HealthRecord.status =
            some Status.online
        · have h := (soft_failure_holds_status s id now cam hfind).1 hrec
          rw [h]
          constructor <;> simp
        · have h := (soft_failure_holds_status s id now cam hfind).2 hrec
          rw [h]
          constructor <;> simp
      · have h := (hard_failure_below_threshold s id now cam hfind hc3).2 code hbad h404
        rw [h]
        by_cases hoff : cam.status = Status.offline
        · rw [hon] at hoff
          exact absurd hoff (by simp)
        · rw [if_neg hoff]
          constructor <;> simp
  | thrown =>
    have h := (hard_failure_below_threshold s id now cam hfind hc3).1
    rw [h]
    by_cases hrec : ((lookupHealth s.healthStatus id).getD
        ⟨Status.checking, 0, 0⟩).status = Status.online
    · rw [if_pos hrec]
      constructor <;> simp
    · rw [if_neg hrec]
      constructor <;> simp

/-- C3 amended witness: on a concrete online camera with errorCount 0, a
thrown probe error does not produce error status. -/
theorem online_needs_three_failures_witness :
    cameraStatusOf (probeStep state1 "cam1" ProbeOutcome.thrown 60) "cam1" ≠
      some Status.error :=
  (online_needs_three_failures state1 "cam1" ProbeOutcome.thrown 60 camOnline1
    (by decide) (by decide) (by decide)).1

theorem loadCamerasResume_healthStatus (s2 : StoreState) (henv : HostEnv) (env : FetchEnv)
    (now : Nat) : (loadCamerasResume s2 henv env now).healthStatus = s2.healthStatus := by
  unfold loadCamerasResume
  cases hlr : env.listResult with
  | fetchError => rfl
  | ok itemsOpt =>
    cases itemsOpt with
    | none => rfl
    | some items =>
      by_cases hi : items = []
      · simp [hi]
      · simp [hi]

theorem loadCameras_healthStatus (s : StoreState) (force : Bool) (henv : HostEnv)
    (env : FetchEnv) (now : Nat) :
    ((loadCameras s force henv env now).1).healthStatus = s.healthStatus := by
  unfold loadCameras loadCamerasSync
  by_cases h1 : s.isLoading ∧ force = false
  · rw [if_pos h1]
  · rw [if_neg h1]
    cases h2 : (if force = false then getCachedCameras s.cache now else none) with
    | none =>
      simp only [h2]
      rw [loadCamerasResume_healthStatus]
    | some cached => simp only [h2]

/-- C6: when the paths-list fetch (or parsing its response) fails during a
refresh that actually reaches the network (a forced refresh, or one
with no valid cache entry), the camera list is left unchanged:
getCameras() returns the same cameras after the failed refresh as
before it. -/
theorem failed_refresh_keeps_cameras (s : StoreState) (force : Bool) (henv : HostEnv)
    (env : FetchEnv) (now : Nat)
    (hfail : env.listResult = ListResult.fetchError)
    (hnet : force = true ∨ getCachedCameras s.cache now = none) :
    getCameras ((loadCameras s force henv env now).1) = getCameras s := by
  cases hf : force with
  | true =>
    simp [loadCameras, loadCamerasSync, loadCamerasResume, hfail, getCameras]
  | false =>
    have hnone : getCachedCameras s.cache now = none := by
      rcases hnet with h | h
      · rw [hf] at h; exact absurd h (by simp)
      · exact h
    by_cases hl : s.isLoading
    · simp [loadCameras, loadCamerasSync, hl, getCameras]
    · simp [loadCameras, loadCamerasSync, hl, hnone, loadCamerasResume, hfail, getCameras]

/-- C6 witness: a failed refresh on a concrete cache-less store keeps its
camera list. -/
theorem failed_refresh_keeps_cameras_witness :
    getCameras ((loadCameras state1 false henv1 envFail 0).1) = getCameras state1 :=
  failed_refresh_keeps_cameras state1 false henv1 envFail 0 rfl (Or.inr rfl)

/-- C7: a loadCameras(false) call that finds a refresh already in flight
(isLoading) returns immediately with the state unchanged and zero
paths-list requests; consequently two concurrent loadCameras(false)
calls starting from a non-loading, cache-miss state issue exactly one
paths-list request between them. -/
theorem concurrent_refresh_coalesced (s : StoreState) (henv : HostEnv) (env : FetchEnv)
    (now : Nat) :
    (s.isLoading = true → loadCameras s false henv env now = (s, 0)) ∧
    (s.isLoading = false → getCachedCameras s.cache now = none →
      (coalescedRefreshPair s henv env now).2 = 1) := by
  constructor
  · intro hl
    simp [loadCameras, loadCamerasSync, hl]
  · intro hl hnone
    simp [coalescedRefreshPair, loadCameras, loadCamerasSync, hl, hnone]

/-- C7 witness: on a concrete in-flight store the call is a no-op with zero
requests, and on a concrete idle store the concurrent pair issues one
request. -/
theorem concurrent_refresh_coalesced_witness :
    loadCameras state1Loading false henv1 envFail 0 = (state1Loading, 0) ∧
    (coalescedRefreshPair state1 henv1 envFail 0).2 = 1 :=
  ⟨(concurrent_refresh_coalesced state1Loading henv1 envFail 0).1 rfl,
   (concurrent_refresh_coalesced state1 henv1 envFail 0).2 rfl rfl⟩

theorem buildCamera_from_empty_health (oldCams : List Camera) (henv : HostEnv) (now : Nat)
    (config : PathConfig) :
    (buildCamera oldCams [] henv now config).errorCount = 0 ∧
    ((buildCamera oldCams [] henv now config).status = Status.checking ∨
      (buildCamera oldCams [] henv now config).status = Status.error) := by
  unfold buildCamera
  constructor
  · simp [lookupHealth]
  · by_cases he : config.error
    · right
      simp [he]
    · left
      simp [he, lookupHealth]

/-- C8: forceRefreshCameraStatus first removes every entry of the
health-record map, before the camera list is reloaded and before the
probe cycle runs: the health map is empty right after the clearing
step and still empty when the probe cycle starts, every camera built
by the reload is re-evaluated from scratch (status checking, or error
for a failed config fetch, with errorCount 0), and the whole operation
is exactly the clear-reload-probe composition. -/
theorem force_refresh_clears_health (s : StoreState) (henv : HostEnv) (env : FetchEnv)
    (outcomes : String → ProbeOutcome) (now : Nat) (itemsOpt : Option (List String))
    (hok : env.listResult = ListResult.ok itemsOpt) :
    (clearHealthStatus s).healthStatus = [] ∧
    ((loadCameras (clearHealthStatus s) true henv env now).1).healthStatus = [] ∧
    (∀ cam ∈ ((loadCameras (clearHealthStatus s) true henv env now).1).cameras,
      cam.errorCount = 0 ∧ (cam.status = Status.checking ∨ cam.status = Status.error)) ∧
    forceRefreshCameraStatus s henv env outcomes now =
      checkCamerasHealth ((loadCameras (clearHealthStatus s) true henv env now).1)
        outcomes now := by
  refine ⟨rfl, ?_, ?_, rfl⟩
  · rw [loadCameras_healthStatus]
    rfl
  · intro cam hmem
    simp only [loadCameras, loadCamerasSync, clearHealthStatus, Bool.true_eq_false,
      and_false, if_false, if_neg] at hmem
    rw [loadCamerasResume] at hmem
    simp only [hok] at hmem
    cases itemsOpt with
    | none => simp at hmem
    | some items =>
      by_cases hi : items = []
      · simp [hi] at hmem
      · simp only [hi, if_false, if_neg] at hmem
        simp only [List.mem_map] at hmem
        obtain ⟨config, hcfg, hcam⟩ := hmem
        rw [← hcam]
        exact buildCamera_from_empty_health _ henv now config

/-- C8 witness: on a concrete store with a successful reload, the health map
passed to the probe cycle is empty. -/
theorem force_refresh_clears_health_witness :
    ((loadCameras (clearHealthStatus state1) true henv1 envOk1 0).1).healthStatus = [] :=
  (force_refresh_clears_health state1 henv1 envOk1 (fun _ => ProbeOutcome.thrown) 0
    (some ["cam_a"]) rfl).2.1

end CameraStore

